import Mathlib

/-!
Shallow embedding of the attendance-requirement engine and day-schedule
optimizer of the shouldITakeClass repository (src/lib/attendanceCalculator.ts,
src/lib/scheduleOptimizer.ts, src/lib/collegeDecisionEngine.ts,
src/lib/dataManager.ts, src/types/attendance.ts).

JavaScript numbers are modelled as ℤ for the integer-valued counters and as ℚ
for percentages and scores; `q / 0` situations that would produce NaN or
±Infinity in JavaScript are special-cased explicitly where the source can
reach them.
-/

/-- JS `Math.round`: rounds half away from negative infinity, i.e. `⌊q + 1/2⌋`. -/
def jsRound (q : ℚ) : ℤ := ⌊q + 1 / 2⌋

/-- JS `Math.round(q * 100) / 100` (round to two decimals). -/
def jsRound2 (q : ℚ) : ℚ := (jsRound (q * 100) : ℚ) / 100

/-- JS `Math.round(q * 10) / 10` (round to one decimal). -/
def jsRound1 (q : ℚ) : ℚ := (jsRound (q * 10) : ℚ) / 10

/-- Renders the number `k / 10` the way JS template interpolation prints it:
"2" for 20 tenths, "2.5" for 25 tenths. Used only inside reasoning strings. -/
def tenthToString (k : ℤ) : String :=
  let sign := if k < 0 then "-" else ""
  let n := k.natAbs
  if n % 10 = 0 then sign ++ toString (n / 10)
  else sign ++ toString (n / 10) ++ "." ++ toString (n % 10)

/-- Course record (src/types/attendance.ts). -/
structure Course where
  id : String
  name : String
  requiredAttendancePercentage : ℚ
  totalClassesScheduled : ℤ
  classesAttended : ℤ
  classesCancelled : ℤ
deriving DecidableEq, Repr

/-- ClassTime record (src/types/attendance.ts). -/
structure ClassTime where
  startTime : String
  endTime : String
  courseId : String
  location : Option String := none
deriving DecidableEq, Repr

instance : Inhabited ClassTime := ⟨⟨"", "", "", none⟩⟩

/-- Gap entry produced by ScheduleOptimizer.calculateTimeGaps; the source field
named `end` is called `stop` here because `end` is a Lean keyword. -/
structure TimeGap where
  start : String
  stop : String
  duration : ℤ
deriving DecidableEq, Repr

/-- UserPreferences record (src/types/attendance.ts). -/
structure UserPreferences where
  minimizeCollegeDays : Bool
  maxGapBetweenClasses : ℤ
  priorityCourses : List String
  minimumClassesPerDay : ℤ
deriving DecidableEq, Repr

/-- ScheduleOverride record (src/types/attendance.ts). -/
structure ScheduleOverride where
  date : String
  classes : List ClassTime
  reason : Option String := none
deriving DecidableEq, Repr

/-- AttendanceStatus record (src/types/attendance.ts). -/
structure AttendanceStatus where
  courseId : String
  courseName : String
  classesAttended : ℤ
  totalClassesHeld : ℤ
  currentPercentage : ℚ
  classesNeededFor75Percent : ℤ
  remainingClassesScheduled : ℤ
  canSkip : ℤ
  isAtRisk : Bool
deriving DecidableEq, Repr

/-- Per-course entry of DayAnalysis.attendanceImpact (src/types/attendance.ts). -/
structure AttendanceImpact where
  currentPercentage : ℚ
  afterAttending : ℚ
  afterSkipping : ℚ
  isRequired : Bool
deriving DecidableEq, Repr

/-- DayAnalysis record (src/types/attendance.ts); the JS object keyed by
courseId is modelled as an association list in insertion order. -/
structure DayAnalysis where
  date : String
  scheduledClasses : List ClassTime
  shouldGo : Bool
  recommendedClasses : List String
  reasoning : List String
  timeGaps : List TimeGap
  attendanceImpact : List (String × AttendanceImpact)
deriving DecidableEq, Repr

/-- JS object assignment `m[k] = v`: replaces the value in place when the key
is present, otherwise appends the new key at the end (JS insertion order). -/
def insertAssoc {β : Type} (m : List (String × β)) (k : String) (v : β) :
    List (String × β) :=
  if m.any (fun p => p.1 == k) then m.map (fun p => if p.1 == k then (k, v) else p)
  else m ++ [(k, v)]

/-- Lookup `m[k]` on the association-list model of a JS object. -/
def lookupAssoc {β : Type} (m : List (String × β)) (k : String) : Option β :=
  (m.find? (fun p => p.1 == k)).map Prod.snd

namespace AttendanceCalculator

/-- AttendanceCalculator.calculateAttendanceStatus
(src/lib/attendanceCalculator.ts lines 7-37). The float literal `0.8` of the
source is the rational 4/5 here. -/
def calculateAttendanceStatus (course : Course) : AttendanceStatus :=
  let totalClassesHeld : ℤ := course.totalClassesScheduled - course.classesCancelled
  let currentPercentage : ℚ :=
    if 0 < totalClassesHeld then
      ((course.classesAttended : ℚ) / (totalClassesHeld : ℚ)) * 100
    else 0
  let requiredClasses : ℤ :=
    ⌈(course.requiredAttendancePercentage / 100) * (totalClassesHeld : ℚ)⌉
  let classesNeededFor75Percent : ℤ := max 0 (requiredClasses - course.classesAttended)
  let remainingClassesScheduled : ℤ := course.totalClassesScheduled - totalClassesHeld
  let maxSkippableClasses : ℤ := course.classesAttended - requiredClasses
  let canSkip : ℤ := max 0 maxSkippableClasses
  let futureClassesNeeded : ℤ := classesNeededFor75Percent
  let isAtRisk : Bool :=
    decide ((remainingClassesScheduled : ℚ) * (4 / 5) < (futureClassesNeeded : ℚ))
  { courseId := course.id
    courseName := course.name
    classesAttended := course.classesAttended
    totalClassesHeld := totalClassesHeld
    currentPercentage := jsRound2 currentPercentage
    classesNeededFor75Percent := classesNeededFor75Percent
    remainingClassesScheduled := remainingClassesScheduled
    canSkip := canSkip
    isAtRisk := isAtRisk }

/-- AttendanceCalculator.calculateDayImpact
(src/lib/attendanceCalculator.ts lines 42-77). -/
def calculateDayImpact (courses : List Course) (dayClasses : List ClassTime)
    (totalRemainingClasses : List (String × ℤ)) : List (String × AttendanceImpact) :=
  dayClasses.foldl
    (fun impact classTime =>
      match courses.find? (fun c => c.id == classTime.courseId) with
      | none => impact
      | some course =>
        let currentStatus := calculateAttendanceStatus course
        let totalClassesHeld : ℤ := course.totalClassesScheduled - course.classesCancelled
        let remainingTotal : ℤ := (lookupAssoc totalRemainingClasses course.id).getD 0
        let afterAttending : ℚ :=
          (((course.classesAttended + 1 : ℤ) : ℚ) / ((totalClassesHeld + 1 : ℤ) : ℚ)) * 100
        let afterSkipping : ℚ :=
          ((course.classesAttended : ℚ) / ((totalClassesHeld + 1 : ℤ) : ℚ)) * 100
        let requiredClasses : ℤ :=
          ⌈(course.requiredAttendancePercentage / 100) * ((totalClassesHeld + remainingTotal : ℤ) : ℚ)⌉
        let isRequired : Bool :=
          decide (course.classesAttended < requiredClasses) &&
            decide (course.classesAttended + remainingTotal ≤ requiredClasses)
        insertAssoc impact classTime.courseId
          { currentPercentage := currentStatus.currentPercentage
            afterAttending := jsRound2 afterAttending
            afterSkipping := jsRound2 afterSkipping
            isRequired := isRequired })
    []

/-- AttendanceCalculator.isAttendanceRecoverable
(src/lib/attendanceCalculator.ts lines 107-116). The source divides by
`totalFutureClasses` without a guard; JS IEEE semantics at zero are encoded
explicitly: `0 / 0` is NaN (every comparison false), `x / 0` for `x ≠ 0` is
±Infinity (so `≥ required` holds exactly when `x > 0`). -/
def isAttendanceRecoverable (course : Course) (remainingClassesInSchedule : ℤ) : Bool :=
  let totalFutureClasses : ℤ :=
    course.totalClassesScheduled - course.classesCancelled + remainingClassesInSchedule
  let maxPossibleAttended : ℤ := course.classesAttended + remainingClassesInSchedule
  if totalFutureClasses = 0 then
    decide (0 < maxPossibleAttended)
  else
    decide (course.requiredAttendancePercentage ≤
      ((maxPossibleAttended : ℚ) / (totalFutureClasses : ℚ)) * 100)

/-- AttendanceCalculator.getAttendanceSummary
(src/lib/attendanceCalculator.ts lines 121-123). -/
def getAttendanceSummary (courses : List Course) : List AttendanceStatus :=
  courses.map calculateAttendanceStatus

end AttendanceCalculator

namespace ScheduleOptimizer

/-- Splits a character list at each colon (the list-level model of
JS `time.split(':')`). -/
def splitColons : List Char → List (List Char)
  | [] => [[]]
  | c :: cs =>
    match splitColons cs with
    | [] => [[]]
    | g :: gs => if c = ':' then [] :: g :: gs else (c :: g) :: gs

/-- JS `Number(str)` restricted to the digit strings appearing in time values:
`Number("")` is 0, a digit string is its decimal value, anything else is NaN
(modelled as `none`). -/
def jsStringToNat (cs : List Char) : Option Nat :=
  if cs.isEmpty then some 0
  else if cs.all Char.isDigit then
    some (cs.foldl (fun n c => n * 10 + (c.toNat - 48)) 0)
  else none

/-- ScheduleOptimizer.timeToMinutes (src/lib/scheduleOptimizer.ts lines 41-44):
`hours * 60 + minutes` after splitting "HH:MM" on the colon. A malformed time
produces NaN in JS; that case (the fallback 0 here) is reached by no claim. -/
def timeToMinutes (time : String) : ℤ :=
  match (splitColons time.data).map jsStringToNat with
  | [some hours, some minutes] => (hours : ℤ) * 60 + (minutes : ℤ)
  | _ => 0

/-- Comparator key order used by the source's `sort((a, b) => timeToMinutes(a.startTime) - timeToMinutes(b.startTime))`. -/
def startLe (a b : ClassTime) : Prop :=
  timeToMinutes a.startTime ≤ timeToMinutes b.startTime

instance : DecidableRel startLe := fun a b => Int.decLe _ _

instance : IsTotal ClassTime startLe :=
  ⟨fun a b => Int.le_total (timeToMinutes a.startTime) (timeToMinutes b.startTime)⟩

instance : IsTrans ClassTime startLe :=
  ⟨fun _ _ _ hab hbc => Int.le_trans hab hbc⟩

/-- Stable ascending sort by start time, the behaviour ECMAScript specifies for
`[...classes].sort((a, b) => timeToMinutes(a.startTime) - timeToMinutes(b.startTime))`. -/
def sortByStart (classes : List ClassTime) : List ClassTime :=
  List.insertionSort startLe classes

/-- Gap-collecting loop of ScheduleOptimizer.calculateTimeGaps
(src/lib/scheduleOptimizer.ts lines 19-33): walk adjacent pairs of the sorted
list and record a gap exactly when the next start is strictly after the
current end. -/
def gapsOfSorted : List ClassTime → List TimeGap
  | [] => []
  | [_] => []
  | a :: b :: rest =>
    let gapDuration := timeToMinutes b.startTime - timeToMinutes a.endTime
    (if 0 < gapDuration then [⟨a.endTime, b.startTime, gapDuration⟩] else []) ++
      gapsOfSorted (b :: rest)

/-- ScheduleOptimizer.calculateTimeGaps (src/lib/scheduleOptimizer.ts lines 7-36). -/
def calculateTimeGaps (classes : List ClassTime) : List TimeGap :=
  if classes.length ≤ 1 then [] else gapsOfSorted (sortByStart classes)

/-- ScheduleOptimizer.calculateDayDuration
(src/lib/scheduleOptimizer.ts lines 58-72). -/
def calculateDayDuration (classes : List ClassTime) : ℤ :=
  match classes with
  | [] => 0
  | [c] => timeToMinutes c.endTime - timeToMinutes c.startTime
  | _ :: _ :: _ =>
    let sorted := sortByStart classes
    timeToMinutes (sorted.getLastD default).endTime -
      timeToMinutes (sorted.headD default).startTime

/-- JS `gaps.length > 0 ? Math.max(...gaps.map(g => g.duration)) : 0`. -/
def maxGapDuration (gaps : List TimeGap) : ℤ :=
  match gaps.map (fun g => g.duration) with
  | [] => 0
  | d :: ds => ds.foldl max d

/-- Result record of ScheduleOptimizer.violatesPreferences. -/
structure PreferenceViolations where
  violatesGapLimit : Bool
  violatesMinimumClasses : Bool
  maxGapDuration : ℤ
  reasons : List String
deriving DecidableEq, Repr

/-- ScheduleOptimizer.violatesPreferences
(src/lib/scheduleOptimizer.ts lines 77-105). -/
def violatesPreferences (classes : List ClassTime) (preferences : UserPreferences) :
    PreferenceViolations :=
  let gaps := calculateTimeGaps classes
  let maxGap := maxGapDuration gaps
  let violatesGapLimit := decide (preferences.maxGapBetweenClasses < maxGap)
  let violatesMinimumClasses :=
    decide ((classes.length : ℤ) < preferences.minimumClassesPerDay)
  let gapHours := tenthToString (jsRound ((maxGap : ℚ) / 60 * 10))
  let limitHours := tenthToString (jsRound ((preferences.maxGapBetweenClasses : ℚ) / 60 * 10))
  let cnt := classes.length
  let minC := preferences.minimumClassesPerDay
  let reasons :=
    (if violatesGapLimit then [s!"Gap of {gapHours} hours exceeds limit of {limitHours} hours"]
     else []) ++
    (if violatesMinimumClasses then [s!"Only {cnt} classes, minimum is {minC}"] else [])
  { violatesGapLimit := violatesGapLimit
    violatesMinimumClasses := violatesMinimumClasses
    maxGapDuration := maxGap
    reasons := reasons }

/-- ScheduleOptimizer.calculateDayScore
(src/lib/scheduleOptimizer.ts lines 111-148). -/
def calculateDayScore (classes : List ClassTime) (preferences : UserPreferences)
    (mustAttendClasses : List String) : ℚ :=
  if classes.length = 0 then 0
  else
    let mustAttendCount :=
      (classes.filter (fun c => mustAttendClasses.contains c.courseId)).length
    let gaps := calculateTimeGaps classes
    let totalGapTime : ℤ := gaps.foldl (fun sum gap => sum + gap.duration) 0
    let maxGap := maxGapDuration gaps
    let priorityCount :=
      (classes.filter (fun c => preferences.priorityCourses.contains c.courseId)).length
    let score : ℚ :=
      (classes.length : ℚ) * 10 + (mustAttendCount : ℚ) * 20 - (totalGapTime : ℚ) / 60 -
          (if preferences.maxGapBetweenClasses < maxGap then 50 else 0) -
          (if (classes.length : ℤ) < preferences.minimumClassesPerDay then 30 else 0) +
        (priorityCount : ℚ) * 5
    jsRound1 score

/-- Result record of ScheduleOptimizer.optimizeClassSelection. -/
structure OptimizationResult where
  selectedClasses : List ClassTime
  skippedClasses : List ClassTime
  score : ℚ
  reasoning : List String
deriving DecidableEq, Repr

/-- Inner candidate scan of the greedy loop
(src/lib/scheduleOptimizer.ts lines 176-188): try each remaining optional
class appended to the current selection, keeping the first candidate whose
score strictly beats the best seen so far. -/
def findBestAddition (bestSelection : List ClassTime) (remainingOptional : List ClassTime)
    (preferences : UserPreferences) (mustAttendClasses : List String) (bestScore : ℚ) :
    Option ClassTime × ℚ :=
  remainingOptional.foldl
    (fun best optionalClass =>
      let testScore :=
        calculateDayScore (bestSelection ++ [optionalClass]) preferences mustAttendClasses
      if best.2 < testScore then (some optionalClass, testScore) else best)
    (none, bestScore)

/-- Greedy while-loop of ScheduleOptimizer.optimizeClassSelection
(src/lib/scheduleOptimizer.ts lines 175-207). The source loop removes one
element of `remainingOptional` per iteration, so running it with
`remainingOptional.length` as fuel reproduces it exactly. -/
def greedyAdd (preferences : UserPreferences) (mustAttendClasses : List String) :
    Nat → List ClassTime → ℚ → List String → List ClassTime →
      List ClassTime × ℚ × List String
  | 0, bestSelection, bestScore, reasoning, _ => (bestSelection, bestScore, reasoning)
  | Nat.succ fuel, bestSelection, bestScore, reasoning, remainingOptional =>
    match findBestAddition bestSelection remainingOptional preferences mustAttendClasses
        bestScore with
    | (some bestAddition, bestNewScore) =>
      if bestScore < bestNewScore then
        let newSelection := bestSelection ++ [bestAddition]
        let violations := violatesPreferences newSelection preferences
        let cid := bestAddition.courseId
        let why := ", ".intercalate violations.reasons
        let line :=
          if violations.violatesGapLimit || violations.violatesMinimumClasses then
            s!"Added {cid} despite {why}"
          else s!"Added optional class {cid}"
        greedyAdd preferences mustAttendClasses fuel newSelection bestNewScore
          (reasoning ++ [line]) (remainingOptional.erase bestAddition)
      else (bestSelection, bestScore, reasoning)
    | (none, _) => (bestSelection, bestScore, reasoning)

/-- ScheduleOptimizer.optimizeClassSelection
(src/lib/scheduleOptimizer.ts lines 154-223). -/
def optimizeClassSelection (allDayClasses : List ClassTime) (mustAttendClasses : List String)
    (preferences : UserPreferences) : OptimizationResult :=
  let mustAttend := allDayClasses.filter (fun c => mustAttendClasses.contains c.courseId)
  let optional := allDayClasses.filter (fun c => !mustAttendClasses.contains c.courseId)
  let bestScore := calculateDayScore mustAttend preferences mustAttendClasses
  let mustCnt := mustAttend.length
  let reasoning₀ := [s!"Including {mustCnt} required classes"]
  let result :=
    greedyAdd preferences mustAttendClasses optional.length mustAttend bestScore reasoning₀
      optional
  let bestSelection := result.1
  let finalScore := result.2.1
  let reasoning₁ := result.2.2
  let skippedClasses :=
    allDayClasses.filter (fun c => !bestSelection.any (fun s => s.courseId == c.courseId))
  let skCnt := skippedClasses.length
  let skIds := ", ".intercalate (skippedClasses.map (fun c => c.courseId))
  let reasoning₂ :=
    if skippedClasses.length > 0 then reasoning₁ ++ [s!"Skipping {skCnt} classes: {skIds}"]
    else reasoning₁
  { selectedClasses := bestSelection
    skippedClasses := skippedClasses
    score := finalScore
    reasoning := reasoning₂ }

/-- Result record of ScheduleOptimizer.shouldGoToCollege. -/
structure GoDecision where
  shouldGo : Bool
  confidence : ℤ
  reasoning : List String
deriving DecidableEq, Repr

/-- ScheduleOptimizer.shouldGoToCollege
(src/lib/scheduleOptimizer.ts lines 228-295); the sequential mutations of
`shouldGo`, `confidence` and `reasoning` are expanded into numbered lets. -/
def shouldGoToCollege (dayClasses : List ClassTime) (mustAttendClasses : List String)
    (preferences : UserPreferences) : GoDecision :=
  if dayClasses.length = 0 then
    { shouldGo := false, confidence := 100, reasoning := ["No classes scheduled"] }
  else
    let mustAttendCount :=
      (dayClasses.filter (fun c => mustAttendClasses.contains c.courseId)).length
    if 0 < mustAttendCount then
      { shouldGo := true
        confidence := 100
        reasoning := [s!"{mustAttendCount} required classes to maintain attendance"] }
    else
      let optimized := optimizeClassSelection dayClasses mustAttendClasses preferences
      let violations := violatesPreferences optimized.selectedClasses preferences
      let belowMinimum :=
        decide ((optimized.selectedClasses.length : ℤ) < preferences.minimumClassesPerDay)
      let selCnt := optimized.selectedClasses.length
      let minC := preferences.minimumClassesPerDay
      let shouldGo₁ := !belowMinimum
      let confidence₁ : ℤ := if belowMinimum then 80 else 70
      let reasoning₁ :=
        if belowMinimum then [s!"Only {selCnt} classes, below minimum of {minC}"] else []
      let shouldGo₂ := shouldGo₁ && !violations.violatesGapLimit
      let why := ", ".intercalate violations.reasons
      let confidence₂ : ℤ := if violations.violatesGapLimit then 85 else confidence₁
      let reasoning₂ :=
        if violations.violatesGapLimit then reasoning₁ ++ [s!"Time gaps too large: {why}"]
        else reasoning₁
      let totalCollegeTime := calculateDayDuration optimized.selectedClasses
      let hrs := tenthToString (jsRound ((totalCollegeTime : ℚ) / 60 * 10))
      let confidence₃ : ℤ := if totalCollegeTime < 240 then confidence₂ - 20 else confidence₂
      let reasoning₃ :=
        if totalCollegeTime < 240 then
          reasoning₂ ++ [s!"Only {hrs} hours at college vs 4 hours travel time"]
        else reasoning₂
      let reasoning₄ :=
        if shouldGo₂ && (violations.violatesGapLimit || violations.violatesMinimumClasses) then
          reasoning₃ ++ ["Going anyway due to attendance requirements or priority courses"]
        else reasoning₃
      { shouldGo := shouldGo₂
        confidence := max 0 (min 100 confidence₃)
        reasoning := reasoning₄ }

end ScheduleOptimizer

/-- In-memory state held by the DataManager class (src/lib/dataManager.ts).
The weekly schedule object is an association list keyed by lowercase weekday
name. The attendance-record list is omitted: none of the operations embedded
below reads it. -/
structure DataManager where
  courses : List Course
  weeklySchedule : List (String × List ClassTime)
  scheduleOverrides : List ScheduleOverride
  preferences : UserPreferences
deriving DecidableEq, Repr

namespace DataManager

/-- DataManager.getCourse (src/lib/dataManager.ts lines 34-36). -/
def getCourse (dm : DataManager) (courseId : String) : Option Course :=
  dm.courses.find? (fun c => c.id == courseId)

/-- DataManager.getAllCourses (src/lib/dataManager.ts lines 38-40); the source
returns a fresh copy of the array, which is the list itself here. -/
def getAllCourses (dm : DataManager) : List Course := dm.courses

/-- DataManager.getDaySchedule (src/lib/dataManager.ts lines 67-69). -/
def getDaySchedule (dm : DataManager) (day : String) : List ClassTime :=
  (lookupAssoc dm.weeklySchedule day.toLower).getD []

/-- DataManager.getScheduleOverride (src/lib/dataManager.ts lines 88-90). -/
def getScheduleOverride (dm : DataManager) (date : String) : Option ScheduleOverride :=
  dm.scheduleOverrides.find? (fun o => o.date == date)

/-- Day count from 1970-01-01 of a proleptic-Gregorian civil date
(the days-from-civil algorithm), used to model the weekday computation. -/
def daysFromCivil (y m d : ℤ) : ℤ :=
  let y := if m ≤ 2 then y - 1 else y
  let era := Int.fdiv y 400
  let yoe := y - era * 400
  let mp := Int.emod (m + 9) 12
  let doy := Int.fdiv (153 * mp + 2) 5 + d - 1
  let doe := yoe * 365 + Int.fdiv yoe 4 - Int.fdiv yoe 100 + doy
  era * 146097 + doe - 719468

/-- DataManager.getDayOfWeek (src/lib/dataManager.ts lines 115-119), i.e.
`new Date(dateString).getDay()` for an ISO `YYYY-MM-DD` string on a UTC host
(1970-01-01 was a Thursday, so weekday index is `(days + 4) mod 7`, with 0 =
sunday). A string JS would parse as Invalid Date falls back to "sunday" here;
no claim evaluates such an input. -/
def getDayOfWeek (dateString : String) : String :=
  let days := ["sunday", "monday", "tuesday", "wednesday", "thursday", "friday", "saturday"]
  match (dateString.splitOn "-").map String.toNat? with
  | [some y, some m, some d] =>
    let idx := (Int.emod (daysFromCivil (y : ℤ) (m : ℤ) (d : ℤ) + 4) 7).toNat
    days.getD idx "sunday"
  | _ => "sunday"

/-- DataManager.getScheduleForDate (src/lib/dataManager.ts lines 100-110):
an override for the exact date fully replaces the weekly template. -/
def getScheduleForDate (dm : DataManager) (date : String) : List ClassTime :=
  match getScheduleOverride dm date with
  | some override => override.classes
  | none => getDaySchedule dm (getDayOfWeek date)

/-- DataManager.getPreferences (src/lib/dataManager.ts lines 187-189). -/
def getPreferences (dm : DataManager) : UserPreferences := dm.preferences

end DataManager

/-- DecisionContext record (src/types/attendance.ts). The `upcomingSchedule`
field is omitted: the source fills it by iterating 30 calendar days, and no
function embedded here reads it. -/
structure DecisionContext where
  date : String
  courses : List Course
  daySchedule : List ClassTime
  attendanceStatuses : List AttendanceStatus
  preferences : UserPreferences
deriving Repr

namespace CollegeDecisionEngine

/-- CollegeDecisionEngine.buildDecisionContext
(src/lib/collegeDecisionEngine.ts lines 129-148). -/
def buildDecisionContext (dm : DataManager) (date : String) : DecisionContext :=
  { date := date
    courses := dm.getAllCourses
    daySchedule := dm.getScheduleForDate date
    attendanceStatuses := AttendanceCalculator.getAttendanceSummary dm.getAllCourses
    preferences := dm.getPreferences }

/-- CollegeDecisionEngine.calculateAttendanceImpact
(src/lib/collegeDecisionEngine.ts lines 153-171). -/
def calculateAttendanceImpact (scheduledClasses : List ClassTime)
    (context : DecisionContext) : List (String × AttendanceImpact) :=
  let remainingClassCounts :=
    context.courses.foldl
      (fun m course =>
        insertAssoc m course.id
          (max 0 (course.totalClassesScheduled -
            (course.classesAttended + course.classesCancelled))))
      []
  AttendanceCalculator.calculateDayImpact context.courses scheduledClasses remainingClassCounts

/-- CollegeDecisionEngine.findMustAttendClasses
(src/lib/collegeDecisionEngine.ts lines 176-197). -/
def findMustAttendClasses (context : DecisionContext) : List String :=
  context.daySchedule.filterMap (fun classTime =>
    match context.courses.find? (fun c => c.id == classTime.courseId) with
    | none => none
    | some course =>
      let status := AttendanceCalculator.calculateAttendanceStatus course
      if status.currentPercentage < course.requiredAttendancePercentage ∨
          status.canSkip = 0 ∨ status.isAtRisk = true then
        some classTime.courseId
      else none)

/-- CollegeDecisionEngine.buildReasoning
(src/lib/collegeDecisionEngine.ts lines 202-244). -/
def buildReasoning (decision : ScheduleOptimizer.GoDecision)
    (optimization : ScheduleOptimizer.OptimizationResult)
    (attendanceImpact : List (String × AttendanceImpact))
    (context : DecisionContext) : List String :=
  let reasoning₀ := decision.reasoning
  let criticalCourses := (attendanceImpact.filter (fun p => p.2.isRequired)).map Prod.fst
  let courseNames := criticalCourses.map (fun id =>
    match context.courses.find? (fun c => c.id == id) with
    | some course => course.name
    | none => id)
  let names := ", ".intercalate courseNames
  let reasoning₁ :=
    if criticalCourses.length > 0 then reasoning₀ ++ [s!"Critical attendance: {names}"]
    else reasoning₀
  let reasoning₂ :=
    if optimization.reasoning.length > 0 then reasoning₁ ++ optimization.reasoning
    else reasoning₁
  if optimization.selectedClasses.length > 0 then
    let totalTime := ScheduleOptimizer.calculateDayDuration optimization.selectedClasses
    let hrs := tenthToString (jsRound ((totalTime : ℚ) / 60 * 10))
    let eff : ℚ := (totalTime : ℚ) / 240
    if eff < 1 then reasoning₂ ++ [s!"Low efficiency: {hrs}h at college vs 4h travel"]
    else reasoning₂ ++ [s!"Good efficiency: {hrs}h at college for 4h travel"]
  else reasoning₂

/-- CollegeDecisionEngine.analyzeDay
(src/lib/collegeDecisionEngine.ts lines 22-80). -/
def analyzeDay (dm : DataManager) (date : String) : DayAnalysis :=
  let context := buildDecisionContext dm date
  let scheduledClasses := dm.getScheduleForDate date
  if scheduledClasses.length = 0 then
    { date := date
      scheduledClasses := []
      shouldGo := false
      recommendedClasses := []
      reasoning := ["No classes scheduled for this day"]
      timeGaps := []
      attendanceImpact := [] }
  else
    let attendanceImpact := calculateAttendanceImpact scheduledClasses context
    let mustAttendClasses := findMustAttendClasses context
    let optimization :=
      ScheduleOptimizer.optimizeClassSelection scheduledClasses mustAttendClasses
        context.preferences
    let decision :=
      ScheduleOptimizer.shouldGoToCollege scheduledClasses mustAttendClasses
        context.preferences
    let timeGaps := ScheduleOptimizer.calculateTimeGaps optimization.selectedClasses
    let reasoning := buildReasoning decision optimization attendanceImpact context
    { date := date
      scheduledClasses := scheduledClasses
      shouldGo := decision.shouldGo
      recommendedClasses := optimization.selectedClasses.map (fun c => c.courseId)
      reasoning := reasoning
      timeGaps := timeGaps
      attendanceImpact := attendanceImpact }

/-- CollegeDecisionEngine.calculateConfidenceScore
(src/lib/collegeDecisionEngine.ts lines 249-288). The final `Math.round` of
the source is the identity because every value the accumulator takes is an
integer. -/
def calculateConfidenceScore (analysis : DayAnalysis) : ℤ :=
  if analysis.shouldGo = false ∧ analysis.scheduledClasses.length = 0 then 100
  else if analysis.shouldGo = true ∧ analysis.recommendedClasses.length = 0 then 20
  else
    let mustAttendCount := (analysis.attendanceImpact.filter (fun p => p.2.isRequired)).length
    let confidence₁ : ℤ := 70 + (mustAttendCount : ℤ) * 10
    let maxGap := ScheduleOptimizer.maxGapDuration analysis.timeGaps
    let confidence₂ : ℤ := if 180 < maxGap then confidence₁ - 15 else confidence₁
    let confidence₃ : ℤ :=
      if analysis.recommendedClasses.length > 0 then
        let totalTime :=
          ScheduleOptimizer.calculateDayDuration
            (analysis.scheduledClasses.filter
              (fun c => analysis.recommendedClasses.contains c.courseId))
        let eff : ℚ := (totalTime : ℚ) / 240
        if eff < 1 / 2 then confidence₂ - 20
        else if 3 / 2 < eff then confidence₂ + 10
        else confidence₂
      else confidence₂
    max 0 (min 100 confidence₃)

/-- Entry of the result object of simulateAttendanceDecision. -/
structure SimulatedImpact where
  newPercentage : ℚ
  impact : String
deriving DecidableEq, Repr

/-- Per-course value computed by the body of the forEach loop of
CollegeDecisionEngine.simulateAttendanceDecision
(src/lib/collegeDecisionEngine.ts lines 324-346) for a scheduled course id.
The initial `impact = 'neutral'` of the source is dead: the if/else chain
always overwrites it. -/
def simulatedImpactFor (dm : DataManager) (attendedCourseIds : List String)
    (courseId : String) : Option SimulatedImpact :=
  (dm.getCourse courseId).map (fun course =>
    let attended := attendedCourseIds.contains courseId
    let newAttended : ℤ := course.classesAttended + (if attended then 1 else 0)
    let newTotal : ℤ := course.totalClassesScheduled - course.classesCancelled + 1
    let newPercentage : ℚ := ((newAttended : ℚ) / (newTotal : ℚ)) * 100
    let impact :=
      if newPercentage < course.requiredAttendancePercentage then "critical"
      else if newPercentage < course.requiredAttendancePercentage + 5 then "warning"
      else "safe"
    { newPercentage := jsRound2 newPercentage, impact := impact })

/-- Loop step of simulateAttendanceDecision's forEach: skip a class whose
course is unknown, otherwise write the computed entry under its course id. -/
def simStep (dm : DataManager) (attendedCourseIds : List String)
    (result : List (String × SimulatedImpact)) (classTime : ClassTime) :
    List (String × SimulatedImpact) :=
  match simulatedImpactFor dm attendedCourseIds classTime.courseId with
  | none => result
  | some v => insertAssoc result classTime.courseId v

/-- CollegeDecisionEngine.simulateAttendanceDecision
(src/lib/collegeDecisionEngine.ts lines 317-349). The source only reads from
the data manager — it assigns no field of any stored Course — so the state is
returned unchanged alongside the result object. -/
def simulateAttendanceDecision (dm : DataManager) (date : String)
    (attendedCourseIds : List String) :
    List (String × SimulatedImpact) × DataManager :=
  let dayClasses := dm.getScheduleForDate date
  let result := dayClasses.foldl (simStep dm attendedCourseIds) []
  (result, dm)

end CollegeDecisionEngine

/-- Scoring formula of spec §4.3 exactly as claim C3 states it: no
empty-selection special case and no rounding. -/
def specDayScore (classes : List ClassTime) (preferences : UserPreferences)
    (mustAttendClasses : List String) : ℚ :=
  10 * (classes.length : ℚ) +
      20 * ((classes.filter (fun c => mustAttendClasses.contains c.courseId)).length : ℚ) -
      ((((ScheduleOptimizer.calculateTimeGaps classes).foldl
          (fun sum gap => sum + gap.duration) 0 : ℤ) : ℚ)) / 60 -
      (if preferences.maxGapBetweenClasses <
          ScheduleOptimizer.maxGapDuration (ScheduleOptimizer.calculateTimeGaps classes)
        then 50 else 0) -
      (if (classes.length : ℤ) < preferences.minimumClassesPerDay then 30 else 0) +
    5 * ((classes.filter (fun c => preferences.priorityCourses.contains c.courseId)).length : ℚ)

/-- Confidence formula exactly as claim C7 states it: the efficiency
adjustment from the on-campus-time-to-travel-budget ratio is applied
unconditionally, with no guard on the recommended list being non-empty. -/
def specConfidenceScore (analysis : DayAnalysis) : ℤ :=
  if analysis.shouldGo = false ∧ analysis.scheduledClasses.length = 0 then 100
  else if analysis.shouldGo = true ∧ analysis.recommendedClasses.length = 0 then 20
  else
    let mustAttendCount := (analysis.attendanceImpact.filter (fun p => p.2.isRequired)).length
    let maxGap := ScheduleOptimizer.maxGapDuration analysis.timeGaps
    let totalTime :=
      ScheduleOptimizer.calculateDayDuration
        (analysis.scheduledClasses.filter
          (fun c => analysis.recommendedClasses.contains c.courseId))
    let eff : ℚ := (totalTime : ℚ) / 240
    max 0 (min 100
      (70 + (mustAttendCount : ℤ) * 10 - (if 180 < maxGap then 15 else 0) +
        (if eff < 1 / 2 then -20 else if 3 / 2 < eff then 10 else 0)))

/-!
Theorems. Helper lemmas come first, then one theorem per claim (with its
witness or counterexample where required).
-/

/-- Evaluation rule for `jsRound` at a concrete value. -/
theorem jsRound_eq_of (q : ℚ) (z : ℤ) (h₁ : (z : ℚ) ≤ q + 1 / 2)
    (h₂ : q + 1 / 2 < (z : ℚ) + 1) : jsRound q = z := by
  unfold jsRound
  exact Int.floor_eq_iff.mpr ⟨h₁, h₂⟩

/-- Rounding an integer changes nothing. -/
theorem jsRound_intCast (z : ℤ) : jsRound ((z : ℚ)) = z := by
  refine jsRound_eq_of _ z (by norm_num) (by norm_num)

/-- Two-decimal rounding of an integer changes nothing. -/
theorem jsRound2_intCast (z : ℤ) : jsRound2 ((z : ℚ)) = z := by
  unfold jsRound2
  rw [show ((z : ℚ) * 100) = (((z * 100 : ℤ) : ℚ)) by push_cast; ring, jsRound_intCast]
  push_cast
  ring

/-- Unrolls the gap-collecting loop into its declarative form: one candidate
entry per adjacent pair of the (already sorted) list, kept exactly when the
next start is strictly after the current end. -/
theorem gapsOfSorted_eq_zip : ∀ l : List ClassTime,
    ScheduleOptimizer.gapsOfSorted l =
      (l.zip l.tail).filterMap (fun p =>
        if ScheduleOptimizer.timeToMinutes p.1.endTime <
            ScheduleOptimizer.timeToMinutes p.2.startTime then
          some ⟨p.1.endTime, p.2.startTime,
            ScheduleOptimizer.timeToMinutes p.2.startTime -
              ScheduleOptimizer.timeToMinutes p.1.endTime⟩
        else none)
  | [] => rfl
  | [_] => rfl
  | a :: b :: rest => by
    have ih := gapsOfSorted_eq_zip (b :: rest)
    simp only [ScheduleOptimizer.gapsOfSorted, List.tail_cons, List.zip_cons_cons,
      List.filterMap_cons]
    by_cases h : ScheduleOptimizer.timeToMinutes a.endTime <
        ScheduleOptimizer.timeToMinutes b.startTime
    · rw [if_pos (Int.sub_pos.mpr h), if_pos h]
      simpa using ih
    · rw [if_neg (fun hc => h (Int.sub_pos.mp hc)), if_neg h]
      simpa using ih

/-- calculateTimeGaps in declarative form over the sorted list (the
`length ≤ 1` early return agrees with the loop's behaviour there). -/
theorem calculateTimeGaps_eq_zip (classes : List ClassTime) :
    ScheduleOptimizer.calculateTimeGaps classes =
      ((ScheduleOptimizer.sortByStart classes).zip
          (ScheduleOptimizer.sortByStart classes).tail).filterMap (fun p =>
        if ScheduleOptimizer.timeToMinutes p.1.endTime <
            ScheduleOptimizer.timeToMinutes p.2.startTime then
          some ⟨p.1.endTime, p.2.startTime,
            ScheduleOptimizer.timeToMinutes p.2.startTime -
              ScheduleOptimizer.timeToMinutes p.1.endTime⟩
        else none) := by
  unfold ScheduleOptimizer.calculateTimeGaps
  by_cases h : classes.length ≤ 1
  · rw [if_pos h]
    have hlen : (ScheduleOptimizer.sortByStart classes).length ≤ 1 := by
      unfold ScheduleOptimizer.sortByStart
      rwa [List.length_insertionSort]
    match hs : ScheduleOptimizer.sortByStart classes with
    | [] => simp
    | [x] => simp
    | x :: y :: rest => rw [hs] at hlen; simp at hlen
  · rw [if_neg h]
    exact gapsOfSorted_eq_zip _

/-- Sorting by start time gives the same list for any two permutations of the
same slots, provided all start-time keys are distinct (with equal keys a
stable sort preserves the differing input orders instead). -/
theorem sortByStart_eq_of_perm (l₁ l₂ : List ClassTime) (hperm : l₁.Perm l₂)
    (hdist : l₁.Pairwise (fun a b =>
      ScheduleOptimizer.timeToMinutes a.startTime ≠
        ScheduleOptimizer.timeToMinutes b.startTime)) :
    ScheduleOptimizer.sortByStart l₁ = ScheduleOptimizer.sortByStart l₂ := by
  have hdist₂ : l₂.Pairwise (fun a b =>
      ScheduleOptimizer.timeToMinutes a.startTime ≠
        ScheduleOptimizer.timeToMinutes b.startTime) :=
    (List.Perm.pairwise_iff (fun h => Ne.symm h) hperm).mp hdist
  have hp₁ := List.perm_insertionSort ScheduleOptimizer.startLe l₁
  have hp₂ := List.perm_insertionSort ScheduleOptimizer.startLe l₂
  have hd₁ := (List.Perm.pairwise_iff (fun h => Ne.symm h) hp₁).mpr hdist
  have hd₂ := (List.Perm.pairwise_iff (fun h => Ne.symm h) hp₂).mpr hdist₂
  have hs₁ : (ScheduleOptimizer.sortByStart l₁).Sorted ScheduleOptimizer.startLe :=
    List.sorted_insertionSort ScheduleOptimizer.startLe l₁
  have hs₂ : (ScheduleOptimizer.sortByStart l₂).Sorted ScheduleOptimizer.startLe :=
    List.sorted_insertionSort ScheduleOptimizer.startLe l₂
  have hlt₁ : (ScheduleOptimizer.sortByStart l₁).Pairwise (fun a b =>
      ScheduleOptimizer.timeToMinutes a.startTime <
        ScheduleOptimizer.timeToMinutes b.startTime) :=
    (hs₁.and hd₁).imp (fun h => lt_of_le_of_ne h.1 h.2)
  have hlt₂ : (ScheduleOptimizer.sortByStart l₂).Pairwise (fun a b =>
      ScheduleOptimizer.timeToMinutes a.startTime <
        ScheduleOptimizer.timeToMinutes b.startTime) :=
    (hs₂.and hd₂).imp (fun h => lt_of_le_of_ne h.1 h.2)
  have hps : (ScheduleOptimizer.sortByStart l₁).Perm (ScheduleOptimizer.sortByStart l₂) :=
    (hp₁.trans hperm).trans hp₂.symm
  haveI : IsAntisymm ClassTime (fun a b =>
      ScheduleOptimizer.timeToMinutes a.startTime <
        ScheduleOptimizer.timeToMinutes b.startTime) :=
    ⟨fun _ _ h₁ h₂ => absurd h₂ (Int.not_lt.mpr h₁.le)⟩
  exact List.eq_of_perm_of_sorted hps hlt₁ hlt₂

/-- C5: calculateTimeGaps sorts the slots ascending by start time and reports
one gap entry per adjacent pair of the sorted list, exactly when the next
start is strictly after the current end, with that difference in minutes as
the duration; on the two slots 09:00-10:30 and 11:00-12:30 the result is the
single gap 10:30-11:00 of 30 minutes and the day duration is 210 minutes. -/
theorem calculateTimeGaps_adjacent_spec :
    (∀ classes : List ClassTime,
        (ScheduleOptimizer.sortByStart classes).Sorted ScheduleOptimizer.startLe ∧
          (ScheduleOptimizer.sortByStart classes).Perm classes) ∧
    (∀ classes : List ClassTime,
        ScheduleOptimizer.calculateTimeGaps classes =
          ((ScheduleOptimizer.sortByStart classes).zip
              (ScheduleOptimizer.sortByStart classes).tail).filterMap (fun p =>
            if ScheduleOptimizer.timeToMinutes p.1.endTime <
                ScheduleOptimizer.timeToMinutes p.2.startTime then
              some ⟨p.1.endTime, p.2.startTime,
                ScheduleOptimizer.timeToMinutes p.2.startTime -
                  ScheduleOptimizer.timeToMinutes p.1.endTime⟩
            else none)) ∧
    ScheduleOptimizer.calculateTimeGaps
        [⟨"09:00", "10:30", "c1", none⟩, ⟨"11:00", "12:30", "c2", none⟩] =
      [⟨"10:30", "11:00", 30⟩] ∧
    ScheduleOptimizer.calculateDayDuration
        [⟨"09:00", "10:30", "c1", none⟩, ⟨"11:00", "12:30", "c2", none⟩] = 210 :=
  ⟨fun classes =>
    ⟨List.sorted_insertionSort ScheduleOptimizer.startLe classes,
     List.perm_insertionSort ScheduleOptimizer.startLe classes⟩,
   calculateTimeGaps_eq_zip, by decide, by decide⟩

/-- C8 (counterexample): calculateTimeGaps is not invariant under permutations
when two slots share a start time — the stable sort keeps them in input
order, so the two orders produce different adjacent pairs and different gaps. -/
theorem calculateTimeGaps_perm_cex :
    ([⟨"00:00", "01:00", "a", none⟩, ⟨"00:00", "00:10", "b", none⟩,
        ⟨"01:40", "01:50", "c", none⟩] : List ClassTime).Perm
        [⟨"00:00", "00:10", "b", none⟩, ⟨"00:00", "01:00", "a", none⟩,
          ⟨"01:40", "01:50", "c", none⟩] ∧
    ScheduleOptimizer.calculateTimeGaps
        [⟨"00:00", "01:00", "a", none⟩, ⟨"00:00", "00:10", "b", none⟩,
          ⟨"01:40", "01:50", "c", none⟩] ≠
      ScheduleOptimizer.calculateTimeGaps
        [⟨"00:00", "00:10", "b", none⟩, ⟨"00:00", "01:00", "a", none⟩,
          ⟨"01:40", "01:50", "c", none⟩] :=
  ⟨List.Perm.swap _ _ _, by decide⟩

/-- C8 (amended): calculateTimeGaps returns the same gap list on any two
permutations of the same slots whose start times are pairwise distinct, and
calculateDayDuration of the empty list is 0. -/
theorem calculateTimeGaps_perm_invariant (l₁ l₂ : List ClassTime) (hperm : l₁.Perm l₂)
    (hdist : l₁.Pairwise (fun a b =>
      ScheduleOptimizer.timeToMinutes a.startTime ≠
        ScheduleOptimizer.timeToMinutes b.startTime)) :
    ScheduleOptimizer.calculateTimeGaps l₁ = ScheduleOptimizer.calculateTimeGaps l₂ ∧
      ScheduleOptimizer.calculateDayDuration [] = 0 := by
  refine ⟨?_, rfl⟩
  unfold ScheduleOptimizer.calculateTimeGaps
  rw [sortByStart_eq_of_perm l₁ l₂ hperm hdist, hperm.length_eq]

/-- C8 (witness): the permutation-invariance theorem applied to a concrete
pair of permuted slot lists with distinct start times. -/
theorem calculateTimeGaps_perm_invariant_witness :
    ([⟨"09:00", "10:30", "c1", none⟩, ⟨"11:00", "12:30", "c2", none⟩] :
        List ClassTime).Perm
        [⟨"11:00", "12:30", "c2", none⟩, ⟨"09:00", "10:30", "c1", none⟩] ∧
    ([⟨"09:00", "10:30", "c1", none⟩, ⟨"11:00", "12:30", "c2", none⟩] :
        List ClassTime).Pairwise (fun a b =>
      ScheduleOptimizer.timeToMinutes a.startTime ≠
        ScheduleOptimizer.timeToMinutes b.startTime) ∧
    ScheduleOptimizer.calculateTimeGaps
        [⟨"09:00", "10:30", "c1", none⟩, ⟨"11:00", "12:30", "c2", none⟩] =
      ScheduleOptimizer.calculateTimeGaps
        [⟨"11:00", "12:30", "c2", none⟩, ⟨"09:00", "10:30", "c1", none⟩] :=
  ⟨List.Perm.swap _ _ _, by decide,
   (calculateTimeGaps_perm_invariant _ _ (List.Perm.swap _ _ _) (by decide)).1⟩

/-- Greedy loop of optimizeClassSelection only ever appends to the current
selection, so the initial selection survives into the result. -/
theorem greedyAdd_subset (preferences : UserPreferences) (mustAttendClasses : List String) :
    ∀ (fuel : Nat) (sel : List ClassTime) (sc : ℚ) (reas : List String)
      (rem : List ClassTime),
      sel ⊆ (ScheduleOptimizer.greedyAdd preferences mustAttendClasses fuel sel sc reas
        rem).1 := by
  intro fuel
  induction fuel with
  | zero =>
    intro sel sc reas rem
    simp [ScheduleOptimizer.greedyAdd]
  | succ fuel ih =>
    intro sel sc reas rem
    rw [ScheduleOptimizer.greedyAdd]
    split
    · split
      · exact (List.subset_append_left _ _).trans (ih _ _ _ _)
      · simp
    · simp

/-- C2: optimizeClassSelection always returns a selection containing every
day class whose courseId is in the must-attend set — such classes enter the
initial selection and the greedy loop never removes them. -/
theorem optimizeClassSelection_superset (allDayClasses : List ClassTime)
    (mustAttendClasses : List String) (preferences : UserPreferences) (ct : ClassTime)
    (hmem : ct ∈ allDayClasses) (hmust : mustAttendClasses.contains ct.courseId = true) :
    ct ∈ (ScheduleOptimizer.optimizeClassSelection allDayClasses mustAttendClasses
        preferences).selectedClasses := by
  have hct : ct ∈ allDayClasses.filter (fun c => mustAttendClasses.contains c.courseId) :=
    List.mem_filter.mpr ⟨hmem, hmust⟩
  exact greedyAdd_subset preferences mustAttendClasses _ _ _ _ _ hct

/-- C2 (witness): the superset theorem applied at a concrete schedule of one
must-attend and one optional class. -/
theorem optimizeClassSelection_superset_witness :
    (⟨"09:00", "10:30", "m1", none⟩ : ClassTime) ∈
        ([⟨"09:00", "10:30", "m1", none⟩, ⟨"14:00", "15:00", "o1", none⟩] :
          List ClassTime) ∧
    (["m1"] : List String).contains "m1" = true ∧
    (⟨"09:00", "10:30", "m1", none⟩ : ClassTime) ∈
      (ScheduleOptimizer.optimizeClassSelection
          [⟨"09:00", "10:30", "m1", none⟩, ⟨"14:00", "15:00", "o1", none⟩] ["m1"]
          ⟨true, 180, [], 2⟩).selectedClasses :=
  ⟨by decide, by decide,
   optimizeClassSelection_superset _ _ ⟨true, 180, [], 2⟩ _ (by decide) (by decide)⟩

/-- C10: a course with zero held classes and zero attended classes is
reported unrecoverable with zero remaining classes, whatever its required
percentage — the unguarded division `0 / 0` is NaN in JS and every comparison
with NaN is false. -/
theorem isAttendanceRecoverable_zero_future (course : Course)
    (h₁ : course.totalClassesScheduled = course.classesCancelled)
    (h₂ : course.classesAttended = 0) :
    AttendanceCalculator.isAttendanceRecoverable course 0 = false := by
  unfold AttendanceCalculator.isAttendanceRecoverable
  simp [h₁, h₂]

/-- C10 (witness): the unrecoverability theorem at a concrete fully-cancelled
course whose required percentage is 0. -/
theorem isAttendanceRecoverable_zero_future_witness :
    (⟨"c1", "Course 1", 0, 5, 0, 5⟩ : Course).totalClassesScheduled =
        (⟨"c1", "Course 1", 0, 5, 0, 5⟩ : Course).classesCancelled ∧
    (⟨"c1", "Course 1", 0, 5, 0, 5⟩ : Course).classesAttended = 0 ∧
    AttendanceCalculator.isAttendanceRecoverable ⟨"c1", "Course 1", 0, 5, 0, 5⟩ 0 = false :=
  ⟨rfl, rfl, isAttendanceRecoverable_zero_future _ rfl rfl⟩

/-- C4 (counterexample): for a course with zero held classes (scheduled =
cancelled = attended = 0, required 75 ≤ 100) the returned currentPercentage
is 0, not the 100 the claim asserts for the heldClasses = 0 case. -/
theorem calculateAttendanceStatus_cex :
    (AttendanceCalculator.calculateAttendanceStatus
        ⟨"c1", "Course 1", 75, 0, 0, 0⟩).currentPercentage ≠ 100 := by
  have h0 : jsRound2 0 = 0 := by
    rw [show (0 : ℚ) = ((0 : ℤ) : ℚ) by norm_num, jsRound2_intCast]
  have h : (AttendanceCalculator.calculateAttendanceStatus
      ⟨"c1", "Course 1", 75, 0, 0, 0⟩).currentPercentage = 0 := by
    simp only [AttendanceCalculator.calculateAttendanceStatus]
    norm_num [h0]
  rw [h]
  norm_num

/-- C4 (amended): calculateAttendanceStatus returns currentPercentage equal
to attended / heldClasses × 100 rounded to two decimals when heldClasses > 0
and 0 when heldClasses ≤ 0 (not 100); consequently a course with attended =
heldClasses > 0 and requiredAttendancePercentage ≤ 100 gets
currentPercentage = 100, and canSkip is never negative. -/
theorem calculateAttendanceStatus_spec (course : Course) :
    (0 < course.totalClassesScheduled - course.classesCancelled →
      (AttendanceCalculator.calculateAttendanceStatus course).currentPercentage =
        jsRound2 (((course.classesAttended : ℚ) /
          ((course.totalClassesScheduled - course.classesCancelled : ℤ) : ℚ)) * 100)) ∧
    (course.totalClassesScheduled - course.classesCancelled ≤ 0 →
      (AttendanceCalculator.calculateAttendanceStatus course).currentPercentage = 0) ∧
    (course.classesAttended = course.totalClassesScheduled - course.classesCancelled →
      0 < course.totalClassesScheduled - course.classesCancelled →
      course.requiredAttendancePercentage ≤ 100 →
      (AttendanceCalculator.calculateAttendanceStatus course).currentPercentage = 100) ∧
    0 ≤ (AttendanceCalculator.calculateAttendanceStatus course).canSkip := by
  refine ⟨?_, ?_, ?_, ?_⟩
  · intro h
    simp only [AttendanceCalculator.calculateAttendanceStatus]
    rw [if_pos h]
  · intro h
    simp only [AttendanceCalculator.calculateAttendanceStatus]
    rw [if_neg (by omega)]
    rw [show (0 : ℚ) = ((0 : ℤ) : ℚ) by norm_num, jsRound2_intCast]
  · intro heq hpos _
    simp only [AttendanceCalculator.calculateAttendanceStatus]
    rw [if_pos hpos, heq]
    have hne : (((course.totalClassesScheduled - course.classesCancelled : ℤ) : ℚ)) ≠ 0 := by
      exact_mod_cast hpos.ne'
    rw [div_self hne, one_mul]
    rw [show (100 : ℚ) = ((100 : ℤ) : ℚ) by norm_num, jsRound2_intCast]
  · simp only [AttendanceCalculator.calculateAttendanceStatus]
    exact le_max_left 0 _

/-- C4 (witness): the amended theorem at a concrete course that attended all
40 of its held classes with required percentage 100. -/
theorem calculateAttendanceStatus_spec_witness :
    ((⟨"c1", "Course 1", 100, 40, 40, 0⟩ : Course).classesAttended =
        (⟨"c1", "Course 1", 100, 40, 40, 0⟩ : Course).totalClassesScheduled -
          (⟨"c1", "Course 1", 100, 40, 40, 0⟩ : Course).classesCancelled) ∧
    (0 < (⟨"c1", "Course 1", 100, 40, 40, 0⟩ : Course).totalClassesScheduled -
        (⟨"c1", "Course 1", 100, 40, 40, 0⟩ : Course).classesCancelled) ∧
    (AttendanceCalculator.calculateAttendanceStatus
        ⟨"c1", "Course 1", 100, 40, 40, 0⟩).currentPercentage = 100 ∧
    0 ≤ (AttendanceCalculator.calculateAttendanceStatus
        ⟨"c1", "Course 1", 100, 40, 40, 0⟩).canSkip :=
  ⟨by decide, by decide,
   (calculateAttendanceStatus_spec ⟨"c1", "Course 1", 100, 40, 40, 0⟩).2.2.1 (by decide)
     (by decide) (le_refl _),
   (calculateAttendanceStatus_spec ⟨"c1", "Course 1", 100, 40, 40, 0⟩).2.2.2⟩

/-- C3 (counterexample): on the empty selection with minimumClassesPerDay = 2
the source returns 0 (its empty-selection early return) while the claimed
formula yields -30 (the below-minimum penalty), so the claimed equality fails
for the empty selection. -/
theorem calculateDayScore_cex :
    ScheduleOptimizer.calculateDayScore [] ⟨true, 180, [], 2⟩ [] ≠
      specDayScore [] ⟨true, 180, [], 2⟩ [] := by
  have h₁ : ScheduleOptimizer.calculateDayScore [] ⟨true, 180, [], 2⟩ [] = 0 := by
    simp [ScheduleOptimizer.calculateDayScore]
  have h₂ : specDayScore [] ⟨true, 180, [], 2⟩ [] = -30 := by
    simp only [specDayScore]
    norm_num [ScheduleOptimizer.calculateTimeGaps, ScheduleOptimizer.maxGapDuration]
  rw [h₁, h₂]
  norm_num

/-- C3 (amended): for a non-empty selection calculateDayScore equals the
claimed formula rounded to one decimal (the source's final `Math.round(score
* 10) / 10`), and for the empty selection it returns 0 instead of the
formula's value. -/
theorem calculateDayScore_spec (classes : List ClassTime) (preferences : UserPreferences)
    (mustAttendClasses : List String) :
    ScheduleOptimizer.calculateDayScore classes preferences mustAttendClasses =
      if classes.length = 0 then 0
      else jsRound1 (specDayScore classes preferences mustAttendClasses) := by
  unfold ScheduleOptimizer.calculateDayScore specDayScore
  by_cases h : classes.length = 0
  · simp only [if_pos h]
  · simp only [if_neg h]
    congr 1
    ring

/-- C7 (counterexample): a no-go analysis with one scheduled class and an
empty recommended list gets confidence 70 from the source (the efficiency
adjustment is skipped when nothing is recommended), while the claimed formula
subtracts 20 for the on-campus-to-travel ratio 0 < 0.5, giving 50. -/
theorem calculateConfidenceScore_cex :
    CollegeDecisionEngine.calculateConfidenceScore
        ⟨"2024-01-15", [⟨"09:00", "10:30", "c1", none⟩], false, [], [], [], []⟩ ≠
      specConfidenceScore
        ⟨"2024-01-15", [⟨"09:00", "10:30", "c1", none⟩], false, [], [], [], []⟩ := by
  have h₁ : CollegeDecisionEngine.calculateConfidenceScore
      ⟨"2024-01-15", [⟨"09:00", "10:30", "c1", none⟩], false, [], [], [], []⟩ = 70 := by
    simp only [CollegeDecisionEngine.calculateConfidenceScore]
    norm_num [ScheduleOptimizer.maxGapDuration]
  have h₂ : specConfidenceScore
      ⟨"2024-01-15", [⟨"09:00", "10:30", "c1", none⟩], false, [], [], [], []⟩ = 50 := by
    simp only [specConfidenceScore]
    norm_num [ScheduleOptimizer.maxGapDuration, ScheduleOptimizer.calculateDayDuration]
  rw [h₁, h₂]
  norm_num

/-- C7 (amended): calculateConfidenceScore is 100 for a no-go analysis with
no scheduled classes, 20 for a go analysis with nothing recommended, and
otherwise clamps to [0, 100] the value 70 + 10 per required-impact course,
minus 15 when the largest selected gap exceeds 180 minutes, with the
efficiency adjustment (-20 below ratio 0.5, +10 above 1.5) applied only when
at least one class is recommended. -/
theorem calculateConfidenceScore_spec (analysis : DayAnalysis) :
    CollegeDecisionEngine.calculateConfidenceScore analysis =
      if analysis.shouldGo = false ∧ analysis.scheduledClasses.length = 0 then 100
      else if analysis.shouldGo = true ∧ analysis.recommendedClasses.length = 0 then 20
      else
        max 0 (min 100
          (70 +
              ((analysis.attendanceImpact.filter (fun p => p.2.isRequired)).length : ℤ) * 10 -
              (if 180 < ScheduleOptimizer.maxGapDuration analysis.timeGaps then 15 else 0) +
            (if 0 < analysis.recommendedClasses.length then
              (if ((ScheduleOptimizer.calculateDayDuration
                      (analysis.scheduledClasses.filter
                        (fun c => analysis.recommendedClasses.contains c.courseId)) : ℚ) /
                    240) < 1 / 2 then -20
               else if 3 / 2 <
                  ((ScheduleOptimizer.calculateDayDuration
                      (analysis.scheduledClasses.filter
                        (fun c => analysis.recommendedClasses.contains c.courseId)) : ℚ) /
                    240) then 10
               else 0)
             else 0))) := by
  unfold CollegeDecisionEngine.calculateConfidenceScore
  by_cases h₁ : analysis.shouldGo = false ∧ analysis.scheduledClasses.length = 0
  · simp only [if_pos h₁]
  · simp only [if_neg h₁]
    by_cases h₂ : analysis.shouldGo = true ∧ analysis.recommendedClasses.length = 0
    · simp only [if_pos h₂]
    · simp only [if_neg h₂]
      congr 1
      congr 1
      split_ifs <;> ring

/-- C6: when a date carries a ScheduleOverride listing zero classes the
resolved schedule is empty (an override fully replaces the weekly template),
and analyzeDay then returns the no-go analysis with empty recommended
classes and gaps, a "no classes" reasoning line, and derived confidence 100. -/
theorem analyzeDay_empty_override (dm : DataManager) (date : String) (ov : ScheduleOverride)
    (hov : DataManager.getScheduleOverride dm date = some ov) (hcl : ov.classes = []) :
    CollegeDecisionEngine.analyzeDay dm date =
        { date := date
          scheduledClasses := []
          shouldGo := false
          recommendedClasses := []
          reasoning := ["No classes scheduled for this day"]
          timeGaps := []
          attendanceImpact := [] } ∧
      "No classes scheduled for this day" ∈
        (CollegeDecisionEngine.analyzeDay dm date).reasoning ∧
      CollegeDecisionEngine.calculateConfidenceScore
        (CollegeDecisionEngine.analyzeDay dm date) = 100 := by
  have hsched : DataManager.getScheduleForDate dm date = [] := by
    unfold DataManager.getScheduleForDate
    rw [hov]
    exact hcl
  have hana : CollegeDecisionEngine.analyzeDay dm date =
      { date := date
        scheduledClasses := []
        shouldGo := false
        recommendedClasses := []
        reasoning := ["No classes scheduled for this day"]
        timeGaps := []
        attendanceImpact := [] } := by
    unfold CollegeDecisionEngine.analyzeDay
    rw [hsched]
    simp
  refine ⟨hana, ?_, ?_⟩
  · rw [hana]
    simp
  · rw [hana]
    simp [CollegeDecisionEngine.calculateConfidenceScore]

/-- C6 (witness): the empty-override theorem at a concrete data manager whose
only override lists zero classes for 2024-01-15. -/
theorem analyzeDay_empty_override_witness :
    DataManager.getScheduleOverride
        ⟨[], [], [⟨"2024-01-15", [], none⟩], ⟨true, 180, [], 2⟩⟩ "2024-01-15" =
      some ⟨"2024-01-15", [], none⟩ ∧
    (⟨"2024-01-15", [], none⟩ : ScheduleOverride).classes = [] ∧
    CollegeDecisionEngine.analyzeDay
        ⟨[], [], [⟨"2024-01-15", [], none⟩], ⟨true, 180, [], 2⟩⟩ "2024-01-15" =
      { date := "2024-01-15"
        scheduledClasses := []
        shouldGo := false
        recommendedClasses := []
        reasoning := ["No classes scheduled for this day"]
        timeGaps := []
        attendanceImpact := [] } ∧
    CollegeDecisionEngine.calculateConfidenceScore
        (CollegeDecisionEngine.analyzeDay
          ⟨[], [], [⟨"2024-01-15", [], none⟩], ⟨true, 180, [], 2⟩⟩ "2024-01-15") = 100 :=
  ⟨by decide, rfl,
   (analyzeDay_empty_override _ _ ⟨"2024-01-15", [], none⟩ (by decide) rfl).1,
   (analyzeDay_empty_override _ _ ⟨"2024-01-15", [], none⟩ (by decide) rfl).2.2⟩

/-- Looking up the key just written by a JS object assignment returns the new
value. -/
theorem lookupAssoc_insertAssoc_self {β : Type} (m : List (String × β)) (k : String)
    (v : β) : lookupAssoc (insertAssoc m k v) k = some v := by
  unfold insertAssoc lookupAssoc
  by_cases hany : m.any (fun p => p.1 == k) = true
  · rw [if_pos hany]
    induction m with
    | nil => simp at hany
    | cons p t ih =>
      by_cases hp : (p.1 == k) = true
      · simp only [List.map_cons, if_pos hp]
        rw [List.find?_cons_of_pos _ (by simp)]
        rfl
      · simp only [List.any_cons, hp, Bool.false_or] at hany
        simp only [List.map_cons, if_neg hp]
        rw [List.find?_cons_of_neg _ (by simpa using hp)]
        exact ih hany
  · rw [if_neg hany]
    rw [List.find?_append]
    have hnone : m.find? (fun p => p.1 == k) = none := by
      rw [List.find?_eq_none]
      intro x hx
      intro hpx
      exact hany (List.any_of_mem hx hpx)
    rw [hnone]
    simp

/-- Writing one key of a JS object leaves lookups of every other key
unchanged. -/
theorem lookupAssoc_insertAssoc_other {β : Type} (m : List (String × β)) (k k' : String)
    (v : β) (h : k' ≠ k) : lookupAssoc (insertAssoc m k v) k' = lookupAssoc m k' := by
  unfold insertAssoc lookupAssoc
  by_cases hany : m.any (fun p => p.1 == k) = true
  · rw [if_pos hany]
    clear hany
    induction m with
    | nil => simp
    | cons p t ih =>
      by_cases hp : (p.1 == k) = true
      · simp only [List.map_cons, if_pos hp]
        have hpk : p.1 = k := by simpa using hp
        have h₁ : ((k, v).1 == k') = false := by
          simp [(Ne.symm h)]
        have h₂ : (p.1 == k') = false := by
          simp [hpk, Ne.symm h]
        rw [List.find?_cons_of_neg _ (by simp [h₁]), List.find?_cons_of_neg _ (by simp [h₂])]
        exact ih
      · simp only [List.map_cons, if_neg hp]
        by_cases hq : (p.1 == k') = true
        · rw [List.find?_cons_of_pos _ (by simpa using hq),
            List.find?_cons_of_pos _ (by simpa using hq)]
        · rw [List.find?_cons_of_neg _ (by simpa using hq),
            List.find?_cons_of_neg _ (by simpa using hq)]
          exact ih
  · rw [if_neg hany]
    rw [List.find?_append]
    have h₁ : (((k, v)).1 == k') = false := by simp [Ne.symm h]
    rcases hfind : m.find? (fun p => p.1 == k') with _ | p
    · simp [hfind, List.find?, h₁]
    · simp [hfind]

/-- Once the simulation result holds the value the loop computes for a key,
processing further classes never changes that entry (re-processing the same
course writes the identical value again). -/
theorem foldl_simStep_preserve (dm : DataManager) (ids : List String) :
    ∀ (xs : List ClassTime) (acc : List (String × CollegeDecisionEngine.SimulatedImpact))
      (k : String) (v : CollegeDecisionEngine.SimulatedImpact),
      CollegeDecisionEngine.simulatedImpactFor dm ids k = some v →
      lookupAssoc acc k = some v →
      lookupAssoc (xs.foldl (CollegeDecisionEngine.simStep dm ids) acc) k = some v := by
  intro xs
  induction xs with
  | nil => intro acc k v _ hacc; exact hacc
  | cons x t ih =>
    intro acc k v hk hacc
    simp only [List.foldl_cons]
    apply ih _ _ _ hk
    unfold CollegeDecisionEngine.simStep
    rcases hx : CollegeDecisionEngine.simulatedImpactFor dm ids x.courseId with _ | w
    · exact hacc
    · by_cases hkx : x.courseId = k
      · subst hkx
        have hwv : w = v := by
          rw [hx] at hk
          exact Option.some.inj hk
        rw [hwv]
        exact lookupAssoc_insertAssoc_self acc x.courseId v
      · rw [lookupAssoc_insertAssoc_other acc x.courseId k w (Ne.symm hkx)]
        exact hacc

/-- The simulation result maps every scheduled class with a known course to
the value the loop body computes for it. -/
theorem foldl_simStep_lookup (dm : DataManager) (ids : List String) :
    ∀ (l : List ClassTime) (acc : List (String × CollegeDecisionEngine.SimulatedImpact))
      (ct : ClassTime) (v : CollegeDecisionEngine.SimulatedImpact),
      ct ∈ l →
      CollegeDecisionEngine.simulatedImpactFor dm ids ct.courseId = some v →
      lookupAssoc (l.foldl (CollegeDecisionEngine.simStep dm ids) acc) ct.courseId = some v := by
  intro l
  induction l with
  | nil => intro acc ct v h; cases h
  | cons x t ih =>
    intro acc ct v hmem hv
    simp only [List.foldl_cons]
    rcases List.mem_cons.mp hmem with heq | hmem₂
    · subst heq
      apply foldl_simStep_preserve dm ids t _ _ _ hv
      unfold CollegeDecisionEngine.simStep
      rw [hv]
      exact lookupAssoc_insertAssoc_self acc ct.courseId v
    · exact ih _ ct v hmem₂ hv

/-- C9: simulateAttendanceDecision leaves the stored data (every Course)
unchanged, and maps each scheduled course to the hypothetical percentage
(attended + 1 if the id is in attendedCourseIds, else attended) /
(heldClasses + 1) × 100 — reported rounded to two decimals — classified
critical below requiredAttendancePercentage, warning below required + 5, and
safe otherwise (classification on the unrounded value). -/
theorem simulateAttendanceDecision_spec (dm : DataManager) (date : String)
    (attendedCourseIds : List String) (classTime : ClassTime) (course : Course)
    (hmem : classTime ∈ DataManager.getScheduleForDate dm date)
    (hcourse : DataManager.getCourse dm classTime.courseId = some course) :
    (CollegeDecisionEngine.simulateAttendanceDecision dm date attendedCourseIds).2 = dm ∧
    lookupAssoc
        (CollegeDecisionEngine.simulateAttendanceDecision dm date attendedCourseIds).1
        classTime.courseId =
      some
        { newPercentage :=
            jsRound2
              ((((course.classesAttended +
                      (if attendedCourseIds.contains classTime.courseId then 1 else 0) :
                    ℤ) : ℚ) /
                  ((course.totalClassesScheduled - course.classesCancelled + 1 : ℤ) : ℚ)) *
                100)
          impact :=
            if (((course.classesAttended +
                    (if attendedCourseIds.contains classTime.courseId then 1 else 0) :
                  ℤ) : ℚ) /
                  ((course.totalClassesScheduled - course.classesCancelled + 1 : ℤ) : ℚ)) *
                100 < course.requiredAttendancePercentage then "critical"
            else
              if (((course.classesAttended +
                      (if attendedCourseIds.contains classTime.courseId then 1 else 0) :
                    ℤ) : ℚ) /
                    ((course.totalClassesScheduled - course.classesCancelled + 1 : ℤ) : ℚ)) *
                  100 < course.requiredAttendancePercentage + 5 then "warning"
              else "safe" } := by
  constructor
  · rfl
  · have hv : CollegeDecisionEngine.simulatedImpactFor dm attendedCourseIds
        classTime.courseId =
        some
          { newPercentage :=
              jsRound2
                ((((course.classesAttended +
                        (if attendedCourseIds.contains classTime.courseId then 1 else 0) :
                      ℤ) : ℚ) /
                    ((course.totalClassesScheduled - course.classesCancelled + 1 : ℤ) : ℚ)) *
                  100)
            impact :=
              if (((course.classesAttended +
                      (if attendedCourseIds.contains classTime.courseId then 1 else 0) :
                    ℤ) : ℚ) /
                    ((course.totalClassesScheduled - course.classesCancelled + 1 : ℤ) : ℚ)) *
                  100 < course.requiredAttendancePercentage then "critical"
              else
                if (((course.classesAttended +
                        (if attendedCourseIds.contains classTime.courseId then 1 else 0) :
                      ℤ) : ℚ) /
                      ((course.totalClassesScheduled - course.classesCancelled + 1 : ℤ) : ℚ)) *
                    100 < course.requiredAttendancePercentage + 5 then "warning"
                else "safe" } := by
      unfold CollegeDecisionEngine.simulatedImpactFor
      rw [hcourse]
      rfl
    exact foldl_simStep_lookup dm attendedCourseIds _ [] classTime _ hmem hv

/-- C9 (witness): the simulation theorem at a one-course, one-class data
manager, marking the class attended. -/
theorem simulateAttendanceDecision_spec_witness :
    (⟨"09:00", "10:30", "c1", none⟩ : ClassTime) ∈
        DataManager.getScheduleForDate
          ⟨[⟨"c1", "Course 1", 75, 10, 8, 0⟩], [],
            [⟨"2024-01-15", [⟨"09:00", "10:30", "c1", none⟩], none⟩],
            ⟨true, 180, [], 2⟩⟩ "2024-01-15" ∧
    DataManager.getCourse
        ⟨[⟨"c1", "Course 1", 75, 10, 8, 0⟩], [],
          [⟨"2024-01-15", [⟨"09:00", "10:30", "c1", none⟩], none⟩],
          ⟨true, 180, [], 2⟩⟩ "c1" = some ⟨"c1", "Course 1", 75, 10, 8, 0⟩ ∧
    (CollegeDecisionEngine.simulateAttendanceDecision
        ⟨[⟨"c1", "Course 1", 75, 10, 8, 0⟩], [],
          [⟨"2024-01-15", [⟨"09:00", "10:30", "c1", none⟩], none⟩],
          ⟨true, 180, [], 2⟩⟩ "2024-01-15" ["c1"]).2 =
      ⟨[⟨"c1", "Course 1", 75, 10, 8, 0⟩], [],
        [⟨"2024-01-15", [⟨"09:00", "10:30", "c1", none⟩], none⟩],
        ⟨true, 180, [], 2⟩⟩ ∧
    lookupAssoc
        (CollegeDecisionEngine.simulateAttendanceDecision
          ⟨[⟨"c1", "Course 1", 75, 10, 8, 0⟩], [],
            [⟨"2024-01-15", [⟨"09:00", "10:30", "c1", none⟩], none⟩],
            ⟨true, 180, [], 2⟩⟩ "2024-01-15" ["c1"]).1 "c1" =
      some
        { newPercentage :=
            jsRound2 ((((8 + (if (["c1"] : List String).contains "c1" then 1 else 0) :
                  ℤ) : ℚ) / ((10 - 0 + 1 : ℤ) : ℚ)) * 100)
          impact :=
            if (((8 + (if (["c1"] : List String).contains "c1" then 1 else 0) : ℤ) : ℚ) /
                  ((10 - 0 + 1 : ℤ) : ℚ)) * 100 < (75 : ℚ) then "critical"
            else
              if (((8 + (if (["c1"] : List String).contains "c1" then 1 else 0) : ℤ) : ℚ) /
                    ((10 - 0 + 1 : ℤ) : ℚ)) * 100 < (75 : ℚ) + 5 then "warning"
              else "safe" } :=
  ⟨by decide, rfl,
   (simulateAttendanceDecision_spec
       ⟨[⟨"c1", "Course 1", 75, 10, 8, 0⟩], [],
         [⟨"2024-01-15", [⟨"09:00", "10:30", "c1", none⟩], none⟩], ⟨true, 180, [], 2⟩⟩
       "2024-01-15" ["c1"] ⟨"09:00", "10:30", "c1", none⟩
       ⟨"c1", "Course 1", 75, 10, 8, 0⟩ (by decide) rfl).1,
   (simulateAttendanceDecision_spec
       ⟨[⟨"c1", "Course 1", 75, 10, 8, 0⟩], [],
         [⟨"2024-01-15", [⟨"09:00", "10:30", "c1", none⟩], none⟩], ⟨true, 180, [], 2⟩⟩
       "2024-01-15" ["c1"] ⟨"09:00", "10:30", "c1", none⟩
       ⟨"c1", "Course 1", 75, 10, 8, 0⟩ (by decide) rfl).2⟩

/-- Membership in findMustAttendClasses: exactly the course ids of scheduled
classes whose (found) course meets the below-required / cannot-skip / at-risk
condition. -/
theorem mem_findMustAttendClasses (context : DecisionContext) (x : String) :
    x ∈ CollegeDecisionEngine.findMustAttendClasses context ↔
      ∃ ct ∈ context.daySchedule, ct.courseId = x ∧
        ∃ course, context.courses.find? (fun c => c.id == ct.courseId) = some course ∧
          ((AttendanceCalculator.calculateAttendanceStatus course).currentPercentage <
              course.requiredAttendancePercentage ∨
            (AttendanceCalculator.calculateAttendanceStatus course).canSkip = 0 ∨
            (AttendanceCalculator.calculateAttendanceStatus course).isAtRisk = true) := by
  unfold CollegeDecisionEngine.findMustAttendClasses
  rw [List.mem_filterMap]
  constructor
  · rintro ⟨ct, hct, hf⟩
    rcases hfind : context.courses.find? (fun c => c.id == ct.courseId) with _ | course
    · rw [hfind] at hf
      simp at hf
    · rw [hfind] at hf
      dsimp only at hf
      by_cases hcond :
          (AttendanceCalculator.calculateAttendanceStatus course).currentPercentage <
              course.requiredAttendancePercentage ∨
            (AttendanceCalculator.calculateAttendanceStatus course).canSkip = 0 ∨
            (AttendanceCalculator.calculateAttendanceStatus course).isAtRisk = true
      · rw [if_pos hcond] at hf
        exact ⟨ct, hct, Option.some.inj hf, course, hfind, hcond⟩
      · rw [if_neg hcond] at hf
        simp at hf
  · rintro ⟨ct, hct, hid, course, hfind, hcond⟩
    refine ⟨ct, hct, ?_⟩
    rw [hfind]
    dsimp only
    rw [if_pos hcond, hid]

/-- Decision projection of analyzeDay on a non-empty schedule: the shouldGo
field comes from shouldGoToCollege on the resolved schedule, the must-attend
ids and the stored preferences. -/
theorem analyzeDay_shouldGo (dm : DataManager) (date : String)
    (hne : DataManager.getScheduleForDate dm date ≠ []) :
    (CollegeDecisionEngine.analyzeDay dm date).shouldGo =
      (ScheduleOptimizer.shouldGoToCollege (DataManager.getScheduleForDate dm date)
        (CollegeDecisionEngine.findMustAttendClasses
          (CollegeDecisionEngine.buildDecisionContext dm date))
        dm.preferences).shouldGo := by
  unfold CollegeDecisionEngine.analyzeDay
  rw [if_neg (fun h => hne (List.length_eq_zero.mp h))]
  rfl

/-- C1: for a date with a non-empty resolved schedule, a scheduled class is
classified must-attend iff its course's status has currentPercentage below
requiredAttendancePercentage, or canSkip = 0, or isAtRisk; and the engine's
go/no-go decision is go iff the must-attend set is non-empty, or the greedily
optimized selection has at least minimumClassesPerDay classes and its maximum
gap does not exceed maxGapBetweenClasses. -/
theorem engineDecision_characterization (dm : DataManager) (date : String)
    (hne : DataManager.getScheduleForDate dm date ≠ []) :
    (∀ ct ∈ (CollegeDecisionEngine.buildDecisionContext dm date).daySchedule,
        ∀ course,
          (CollegeDecisionEngine.buildDecisionContext dm date).courses.find?
              (fun c => c.id == ct.courseId) = some course →
            (ct.courseId ∈ CollegeDecisionEngine.findMustAttendClasses
                (CollegeDecisionEngine.buildDecisionContext dm date) ↔
              ((AttendanceCalculator.calculateAttendanceStatus course).currentPercentage <
                  course.requiredAttendancePercentage ∨
                (AttendanceCalculator.calculateAttendanceStatus course).canSkip = 0 ∨
                (AttendanceCalculator.calculateAttendanceStatus course).isAtRisk = true))) ∧
    ((CollegeDecisionEngine.analyzeDay dm date).shouldGo = true ↔
      (CollegeDecisionEngine.findMustAttendClasses
          (CollegeDecisionEngine.buildDecisionContext dm date) ≠ [] ∨
        (dm.preferences.minimumClassesPerDay ≤
            ((ScheduleOptimizer.optimizeClassSelection (DataManager.getScheduleForDate dm date)
                (CollegeDecisionEngine.findMustAttendClasses
                  (CollegeDecisionEngine.buildDecisionContext dm date))
                dm.preferences).selectedClasses.length : ℤ) ∧
          ScheduleOptimizer.maxGapDuration
              (ScheduleOptimizer.calculateTimeGaps
                ((ScheduleOptimizer.optimizeClassSelection
                    (DataManager.getScheduleForDate dm date)
                    (CollegeDecisionEngine.findMustAttendClasses
                      (CollegeDecisionEngine.buildDecisionContext dm date))
                    dm.preferences).selectedClasses)) ≤
            dm.preferences.maxGapBetweenClasses))) := by
  constructor
  · intro ct hct course hcourse
    constructor
    · intro hx
      rcases (mem_findMustAttendClasses _ _).mp hx with
        ⟨ct', hct', hid, course', hfind', hcond⟩
      rw [hid] at hfind'
      rw [hcourse] at hfind'
      obtain rfl := Option.some.inj hfind'
      exact hcond
    · intro hcond
      exact (mem_findMustAttendClasses _ _).mpr ⟨ct, hct, rfl, course, hcourse, hcond⟩
  · rw [analyzeDay_shouldGo dm date hne]
    unfold ScheduleOptimizer.shouldGoToCollege
    rw [if_neg (fun h => hne (List.length_eq_zero.mp h))]
    by_cases hcnt : 0 < ((DataManager.getScheduleForDate dm date).filter
        (fun c => (CollegeDecisionEngine.findMustAttendClasses
          (CollegeDecisionEngine.buildDecisionContext dm date)).contains c.courseId)).length
    · rw [if_pos hcnt]
      dsimp only
      constructor
      · intro _
        left
        have hfne : ((DataManager.getScheduleForDate dm date).filter
            (fun c => (CollegeDecisionEngine.findMustAttendClasses
              (CollegeDecisionEngine.buildDecisionContext dm date)).contains
                c.courseId)) ≠ [] := by
          intro hnil
          rw [hnil] at hcnt
          simp at hcnt
        obtain ⟨ct, hctf⟩ := List.exists_mem_of_ne_nil _ hfne
        have hcontains := (List.mem_filter.mp hctf).2
        intro hmustnil
        rw [hmustnil] at hcontains
        simp at hcontains
      · intro _
        rfl
    · rw [if_neg hcnt]
      have hmustnil : CollegeDecisionEngine.findMustAttendClasses
          (CollegeDecisionEngine.buildDecisionContext dm date) = [] := by
        rcases hm : CollegeDecisionEngine.findMustAttendClasses
            (CollegeDecisionEngine.buildDecisionContext dm date) with _ | ⟨x, xs⟩
        · rfl
        · exfalso
          have hx : x ∈ CollegeDecisionEngine.findMustAttendClasses
              (CollegeDecisionEngine.buildDecisionContext dm date) := by
            rw [hm]
            exact List.mem_cons_self _ _
          rcases (mem_findMustAttendClasses _ _).mp hx with ⟨ct', hct', hid, _, _, _⟩
          apply hcnt
          apply List.length_pos_of_mem (a := ct')
          apply List.mem_filter.mpr
          refine ⟨hct', ?_⟩
          rw [hid, hm]
          simp
      rw [hmustnil]
      dsimp only
      unfold ScheduleOptimizer.violatesPreferences
      dsimp only
      simp [not_lt]

/-- C1 (witness): the decision characterization at a concrete data manager
whose single course sits at 50% of a 75% requirement, scheduled on an
overridden date. -/
theorem engineDecision_characterization_witness :
    DataManager.getScheduleForDate (⟨[⟨"c1", "Course 1", 75, 10, 5, 0⟩], [],
        [⟨"2024-01-15", [⟨"09:00", "10:30", "c1", none⟩], none⟩],
        ⟨true, 180, [], 2⟩⟩ : DataManager) "2024-01-15" ≠ [] ∧
    ((CollegeDecisionEngine.analyzeDay (⟨[⟨"c1", "Course 1", 75, 10, 5, 0⟩], [],
        [⟨"2024-01-15", [⟨"09:00", "10:30", "c1", none⟩], none⟩],
        ⟨true, 180, [], 2⟩⟩ : DataManager) "2024-01-15").shouldGo = true ↔
      (CollegeDecisionEngine.findMustAttendClasses
          (CollegeDecisionEngine.buildDecisionContext (⟨[⟨"c1", "Course 1", 75, 10, 5, 0⟩], [],
        [⟨"2024-01-15", [⟨"09:00", "10:30", "c1", none⟩], none⟩],
        ⟨true, 180, [], 2⟩⟩ : DataManager) "2024-01-15") ≠ [] ∨
        ((⟨[⟨"c1", "Course 1", 75, 10, 5, 0⟩], [],
        [⟨"2024-01-15", [⟨"09:00", "10:30", "c1", none⟩], none⟩],
        ⟨true, 180, [], 2⟩⟩ : DataManager).preferences.minimumClassesPerDay ≤
            ((ScheduleOptimizer.optimizeClassSelection
                (DataManager.getScheduleForDate (⟨[⟨"c1", "Course 1", 75, 10, 5, 0⟩], [],
        [⟨"2024-01-15", [⟨"09:00", "10:30", "c1", none⟩], none⟩],
        ⟨true, 180, [], 2⟩⟩ : DataManager) "2024-01-15")
                (CollegeDecisionEngine.findMustAttendClasses
                  (CollegeDecisionEngine.buildDecisionContext (⟨[⟨"c1", "Course 1", 75, 10, 5, 0⟩], [],
        [⟨"2024-01-15", [⟨"09:00", "10:30", "c1", none⟩], none⟩],
        ⟨true, 180, [], 2⟩⟩ : DataManager) "2024-01-15"))
                (⟨[⟨"c1", "Course 1", 75, 10, 5, 0⟩], [],
        [⟨"2024-01-15", [⟨"09:00", "10:30", "c1", none⟩], none⟩],
        ⟨true, 180, [], 2⟩⟩ : DataManager).preferences).selectedClasses.length : ℤ) ∧
          ScheduleOptimizer.maxGapDuration
              (ScheduleOptimizer.calculateTimeGaps
                ((ScheduleOptimizer.optimizeClassSelection
                    (DataManager.getScheduleForDate (⟨[⟨"c1", "Course 1", 75, 10, 5, 0⟩], [],
        [⟨"2024-01-15", [⟨"09:00", "10:30", "c1", none⟩], none⟩],
        ⟨true, 180, [], 2⟩⟩ : DataManager) "2024-01-15")
                    (CollegeDecisionEngine.findMustAttendClasses
                      (CollegeDecisionEngine.buildDecisionContext (⟨[⟨"c1", "Course 1", 75, 10, 5, 0⟩], [],
        [⟨"2024-01-15", [⟨"09:00", "10:30", "c1", none⟩], none⟩],
        ⟨true, 180, [], 2⟩⟩ : DataManager) "2024-01-15"))
                    (⟨[⟨"c1", "Course 1", 75, 10, 5, 0⟩], [],
        [⟨"2024-01-15", [⟨"09:00", "10:30", "c1", none⟩], none⟩],
        ⟨true, 180, [], 2⟩⟩ : DataManager).preferences).selectedClasses)) ≤
            (⟨[⟨"c1", "Course 1", 75, 10, 5, 0⟩], [],
        [⟨"2024-01-15", [⟨"09:00", "10:30", "c1", none⟩], none⟩],
        ⟨true, 180, [], 2⟩⟩ : DataManager).preferences.maxGapBetweenClasses))) :=
  ⟨by decide,
   (engineDecision_characterization (⟨[⟨"c1", "Course 1", 75, 10, 5, 0⟩], [],
        [⟨"2024-01-15", [⟨"09:00", "10:30", "c1", none⟩], none⟩],
        ⟨true, 180, [], 2⟩⟩ : DataManager) "2024-01-15" (by decide)).2⟩
